import Mathlib

/-!
Verification of the gesture-to-action approval core of the Gestify
application (files `gestures.py`, `states.py`, `app.py`).

The embedding mirrors the Python source:

* `Gesture` is the closed enum of `gestures.py`.
* A `GestureAction` is an action name together with the observable
  behaviour of its zero-argument callable: it either returns normally
  (`ActionOutcome.ok`) or raises an exception (`ActionOutcome.raises`).
  The six Spotify actions registered in `app.py` are wrapped with the
  `@handle_spotify_errors` decorator, which catches every exception, so
  their callables never raise; the placeholder bound to the closed fist
  raises `NotImplementedError`.
* `GestureToActionMapper` is the registry dictionary; `add_mapping`
  overwrites (`self.gesture_action_map[gesture] = action`).
* `ActionApprovalManager` carries the current state object
  (`IdleState` / `ActionDetectedState` / `ApprovedState`), the optional
  `pending_gesture`, and the mapper reference.
* `ActionApprovalManager.handle_gesture` is the single-event step.  The
  recognizer delivers `Option Gesture` (`recognized_gesture` may be
  `None`).  The step returns the updated manager, the list of action
  callables invoked during the step, and a flag that is `true` exactly
  when an exception escaped `handle_gesture` (the Python source has no
  `try`/`finally` around `action.perform_action()`, so a raising action
  aborts `execute_action` before `self.pending_gesture = None` runs).
-/

inductive Gesture : Type where
  | CLOSED_FIST
  | THUMB_UP
  | THUMB_DOWN
  | OPEN_PALM
  | POINTING_UP
  | VICTORY
  | I_LOVE_YOU
deriving DecidableEq, Repr

/-- Whether an action callable returns normally or raises an exception
when invoked. -/
inductive ActionOutcome : Type where
  | ok
  | raises
deriving DecidableEq, Repr

/-- Model of `GestureAction` from `gestures.py`: an action name plus the behaviour
of the wrapped callable. -/
structure GestureAction : Type where
  action_name : String
  outcome : ActionOutcome
deriving DecidableEq, Repr

/-- Model of `GestureToActionMapper` from `gestures.py`: the dictionary
`gesture_action_map`, modelled as a lookup function (`dict.get` returns
`None` for a missing key). -/
structure GestureToActionMapper : Type where
  gesture_action_map : Gesture → Option GestureAction

/-- Model of `GestureToActionMapper.__init__`: the empty registry. -/
def GestureToActionMapper.empty : GestureToActionMapper :=
  ⟨fun _ => none⟩

/-- Model of `GestureToActionMapper.add_mapping`: dictionary assignment
`self.gesture_action_map[gesture] = action` (overwrite semantics). -/
def GestureToActionMapper.add_mapping (m : GestureToActionMapper)
    (gesture : Gesture) (action : GestureAction) : GestureToActionMapper :=
  ⟨fun g => if g = gesture then some action else m.gesture_action_map g⟩

/-- The three concrete state classes of `states.py`. -/
inductive GestureState : Type where
  | IdleState
  | ActionDetectedState
  | ApprovedState
deriving DecidableEq, Repr

/-- Model of `ActionApprovalManager` from `states.py`: current state object,
optional pending gesture, and the mapper reference. -/
structure ActionApprovalManager : Type where
  state : GestureState
  pending_gesture : Option Gesture
  mapper : GestureToActionMapper

/-- Model of `ActionApprovalManager.__init__`: starts in `IdleState` with no
pending gesture. -/
def initialManager (mapper : GestureToActionMapper) : ActionApprovalManager :=
  { state := GestureState.IdleState, pending_gesture := none, mapper := mapper }

/-- Result of one `handle_gesture` call: the updated manager, the action
callables invoked during the call, and whether an exception escaped the
call. -/
abbrev StepResult := ActionApprovalManager × List GestureAction × Bool

/-- Model of `ActionApprovalManager.execute_action`:

```python
if self.pending_gesture:
    action = self.mapper.gesture_action_map.get(self.pending_gesture)
    if action:
        action.perform_action()
    self.pending_gesture = None
```

There is no `try`/`finally`: when `perform_action` raises, the exception
propagates and `self.pending_gesture = None` does not run. -/
def ActionApprovalManager.execute_action (m : ActionApprovalManager) : StepResult :=
  match m.pending_gesture with
  | none => (m, [], false)
  | some pg =>
      match m.mapper.gesture_action_map pg with
      | none => ({ m with pending_gesture := none }, [], false)
      | some a =>
          match a.outcome with
          | ActionOutcome.ok => ({ m with pending_gesture := none }, [a], false)
          | ActionOutcome.raises => (m, [a], true)

/-- Model of `ActionApprovalManager.handle_gesture`, dispatching to the current
state object exactly as `states.py` does:

* `IdleState`: a closed fist is ignored; a gesture present in the
  mapper dictionary moves to `ActionDetectedState` and records it as
  pending; anything else (unmapped gesture or `None`) is ignored.
* `ActionDetectedState`: a closed fist first transitions to
  `ApprovedState` and then runs `execute_action`; anything else is
  ignored.
* `ApprovedState`: any observation transitions back to `IdleState`. -/
def ActionApprovalManager.handle_gesture (m : ActionApprovalManager)
    (gesture : Option Gesture) : StepResult :=
  match m.state with
  | GestureState.IdleState =>
      if gesture = some Gesture.CLOSED_FIST then
        (m, [], false)
      else
        match gesture with
        | some g =>
            if (m.mapper.gesture_action_map g).isSome then
              ({ m with state := GestureState.ActionDetectedState,
                        pending_gesture := some g }, [], false)
            else
              (m, [], false)
        | none => (m, [], false)
  | GestureState.ActionDetectedState =>
      if gesture = some Gesture.CLOSED_FIST then
        ActionApprovalManager.execute_action
          { m with state := GestureState.ApprovedState }
      else
        (m, [], false)
  | GestureState.ApprovedState =>
      ({ m with state := GestureState.IdleState }, [], false)

/-- Run a sequence of observations through `handle_gesture`, collecting
every invoked action.  When a call lets an exception escape, processing
stops there, as it does in the application loop (nothing in the program
catches an exception raised out of `handle_gesture`). -/
def runEvents (m : ActionApprovalManager) : List (Option Gesture) → StepResult
  | [] => (m, [], false)
  | e :: es =>
      match m.handle_gesture e with
      | (m1, acts1, true) => (m1, acts1, true)
      | (m1, acts1, false) =>
          match runEvents m1 es with
          | (m2, acts2, r) => (m2, acts1 ++ acts2, r)

/-- States of the manager object reachable from `m0` by `handle_gesture`
calls, whether or not a call let an exception escape. -/
inductive Reachable (m0 : ActionApprovalManager) : ActionApprovalManager → Prop where
  | refl : Reachable m0 m0
  | step (m : ActionApprovalManager) (e : Option Gesture) :
      Reachable m0 m → Reachable m0 (m.handle_gesture e).1

/-- States reachable from `m0` by `handle_gesture` calls none of which
let an exception escape. -/
inductive ReachableNoRaise (m0 : ActionApprovalManager) : ActionApprovalManager → Prop where
  | refl : ReachableNoRaise m0 m0
  | step (m : ActionApprovalManager) (e : Option Gesture) :
      ReachableNoRaise m0 m → (m.handle_gesture e).2.2 = false →
      ReachableNoRaise m0 (m.handle_gesture e).1

/-!
The concrete startup registry of `app.py`.  The six Spotify control
actions are registered through the `@handle_spotify_errors` decorator of
`spotify.py`, which catches `SpotifyException` and every other
`Exception`, so the registered callables return normally even when the
external service fails (`ActionOutcome.ok`).  The closed fist is bound
to the placeholder `GestureAction("Approve", not_implemented_action)`,
whose callable raises `NotImplementedError` (`ActionOutcome.raises`).
-/

def addToLikedAction : GestureAction := ⟨"Add to Liked", ActionOutcome.ok⟩

def playNextAction : GestureAction := ⟨"Play Next", ActionOutcome.ok⟩

def stopPlaybackAction : GestureAction := ⟨"Stop Playback", ActionOutcome.ok⟩

def incrementVolumeAction : GestureAction := ⟨"Increase Volume", ActionOutcome.ok⟩

def muteAction : GestureAction := ⟨"Mute", ActionOutcome.ok⟩

def unmuteAction : GestureAction := ⟨"Unmute", ActionOutcome.ok⟩

/-- The placeholder bound to the closed fist in
`ApplicationController.add_gesture_mappings`; its callable
`not_implemented_action` raises `NotImplementedError`.  It is not one of
the content (playback-control) actions. -/
def approveAction : GestureAction := ⟨"Approve", ActionOutcome.raises⟩

/-- Model of `ApplicationController.add_gesture_mappings`: the seven
registrations of `app.py`, in source order. -/
def add_gesture_mappings (m : GestureToActionMapper) : GestureToActionMapper :=
  ((((((m.add_mapping Gesture.THUMB_UP addToLikedAction).add_mapping
      Gesture.THUMB_DOWN playNextAction).add_mapping
      Gesture.OPEN_PALM stopPlaybackAction).add_mapping
      Gesture.POINTING_UP incrementVolumeAction).add_mapping
      Gesture.VICTORY muteAction).add_mapping
      Gesture.I_LOVE_YOU unmuteAction).add_mapping
      Gesture.CLOSED_FIST approveAction

/-- The registry after `ApplicationController.__init__` finishes its
startup registration. -/
def startupMapper : GestureToActionMapper :=
  add_gesture_mappings GestureToActionMapper.empty

/-- The content actions: the six Spotify playback-control actions bound
to content gestures at startup.  The "Approve" placeholder is the
reserved approval role, not a content action. -/
def contentActions : List GestureAction :=
  [addToLikedAction, playNextAction, stopPlaybackAction,
   incrementVolumeAction, muteAction, unmuteAction]

/-!
Helper lemmas describing each state object's handling of one event.
-/

/-- The `IdleState` ignores the closed fist. -/
theorem hg_idle_fist (p : Option Gesture) (mp : GestureToActionMapper) :
    (ActionApprovalManager.handle_gesture ⟨GestureState.IdleState, p, mp⟩
      (some Gesture.CLOSED_FIST)) = (⟨GestureState.IdleState, p, mp⟩, [], false) :=
  rfl

/-- The `IdleState` ignores an empty observation. -/
theorem hg_idle_none (p : Option Gesture) (mp : GestureToActionMapper) :
    (ActionApprovalManager.handle_gesture ⟨GestureState.IdleState, p, mp⟩ none) =
      (⟨GestureState.IdleState, p, mp⟩, [], false) :=
  rfl

/-- The `IdleState` on a mapped non-fist gesture records it as pending and
moves to `ActionDetectedState`. -/
theorem hg_idle_mapped (p : Option Gesture) (mp : GestureToActionMapper)
    (g : Gesture) (hg : g ≠ Gesture.CLOSED_FIST)
    (hm : (mp.gesture_action_map g).isSome = true) :
    (ActionApprovalManager.handle_gesture ⟨GestureState.IdleState, p, mp⟩ (some g)) =
      (⟨GestureState.ActionDetectedState, some g, mp⟩, [], false) := by
  unfold ActionApprovalManager.handle_gesture
  simp only
  rw [if_neg (by simpa using hg), hm]
  simp

/-- The `IdleState` ignores an unmapped non-fist gesture. -/
theorem hg_idle_unmapped (p : Option Gesture) (mp : GestureToActionMapper)
    (g : Gesture) (hg : g ≠ Gesture.CLOSED_FIST)
    (hm : mp.gesture_action_map g = none) :
    (ActionApprovalManager.handle_gesture ⟨GestureState.IdleState, p, mp⟩ (some g)) =
      (⟨GestureState.IdleState, p, mp⟩, [], false) := by
  unfold ActionApprovalManager.handle_gesture
  simp only
  rw [if_neg (by simpa using hg), hm]
  simp

/-- The `ActionDetectedState` ignores every observation other than the
closed fist. -/
theorem hg_detected_nonfist (p : Option Gesture) (mp : GestureToActionMapper)
    (e : Option Gesture) (he : e ≠ some Gesture.CLOSED_FIST) :
    (ActionApprovalManager.handle_gesture ⟨GestureState.ActionDetectedState, p, mp⟩ e) =
      (⟨GestureState.ActionDetectedState, p, mp⟩, [], false) := by
  unfold ActionApprovalManager.handle_gesture
  simp only
  rw [if_neg he]

/-- The `ActionDetectedState` on the closed fist moves to `ApprovedState`
and runs `execute_action` there. -/
theorem hg_detected_fist (p : Option Gesture) (mp : GestureToActionMapper) :
    (ActionApprovalManager.handle_gesture ⟨GestureState.ActionDetectedState, p, mp⟩
      (some Gesture.CLOSED_FIST)) =
      (ActionApprovalManager.execute_action ⟨GestureState.ApprovedState, p, mp⟩) :=
  rfl

/-- The `ApprovedState` sends any observation back to `IdleState`, leaving
the pending field untouched and invoking nothing. -/
theorem hg_approved (p : Option Gesture) (mp : GestureToActionMapper)
    (e : Option Gesture) :
    (ActionApprovalManager.handle_gesture ⟨GestureState.ApprovedState, p, mp⟩ e) =
      (⟨GestureState.IdleState, p, mp⟩, [], false) :=
  rfl

/-- Unfolding `runEvents` over a first call that lets no exception
escape. -/
theorem runEvents_cons (m : ActionApprovalManager) (e : Option Gesture)
    (es : List (Option Gesture)) (m1 : ActionApprovalManager)
    (acts1 : List GestureAction)
    (h : m.handle_gesture e = (m1, acts1, false)) :
    runEvents m (e :: es) =
      ((runEvents m1 es).1, acts1 ++ (runEvents m1 es).2.1,
        (runEvents m1 es).2.2) := by
  rcases hr : runEvents m1 es with ⟨m2, acts2, r⟩
  conv_lhs => rw [runEvents]
  rw [h]
  dsimp only
  rw [hr]

/-- Unfolding `runEvents` over a first call that lets an exception
escape: processing stops there. -/
theorem runEvents_cons_raise (m : ActionApprovalManager) (e : Option Gesture)
    (es : List (Option Gesture)) (m1 : ActionApprovalManager)
    (acts1 : List GestureAction)
    (h : m.handle_gesture e = (m1, acts1, true)) :
    runEvents m (e :: es) = (m1, acts1, true) := by
  unfold runEvents
  rw [h]

/-- Running `execute_action` with a pending gesture whose registry entry is
absent: nothing is invoked, no exception, pending cleared. -/
theorem execute_action_missing (st : GestureState) (mp : GestureToActionMapper)
    (g : Gesture) (hm : mp.gesture_action_map g = none) :
    ActionApprovalManager.execute_action ⟨st, some g, mp⟩ =
      (⟨st, none, mp⟩, [], false) := by
  unfold ActionApprovalManager.execute_action
  simp only [hm]

/-- Running `execute_action` with a pending gesture bound to a normally
returning action: the action is invoked once and pending is cleared. -/
theorem execute_action_ok (st : GestureState) (mp : GestureToActionMapper)
    (g : Gesture) (a : GestureAction) (hm : mp.gesture_action_map g = some a)
    (ho : a.outcome = ActionOutcome.ok) :
    ActionApprovalManager.execute_action ⟨st, some g, mp⟩ =
      (⟨st, none, mp⟩, [a], false) := by
  unfold ActionApprovalManager.execute_action
  simp only [hm, ho]

/-- Running `execute_action` with a pending gesture bound to a raising action:
the action is invoked, the exception escapes, and pending is NOT
cleared (the assignment after the call never runs). -/
theorem execute_action_raise (st : GestureState) (mp : GestureToActionMapper)
    (g : Gesture) (a : GestureAction) (hm : mp.gesture_action_map g = some a)
    (ho : a.outcome = ActionOutcome.raises) :
    ActionApprovalManager.execute_action ⟨st, some g, mp⟩ =
      (⟨st, some g, mp⟩, [a], true) := by
  unfold ActionApprovalManager.execute_action
  simp only [hm, ho]

/-!
Concrete fixtures used by counterexamples and witnesses.
-/

/-- A registry binding only `THUMB_UP` to the (normally returning)
volume-increase action, as in the spec's concrete scenario. -/
def thumbUpMapper : GestureToActionMapper :=
  GestureToActionMapper.empty.add_mapping Gesture.THUMB_UP incrementVolumeAction

/-- An arbitrary registered action whose callable raises when invoked
(the registry accepts any zero-argument callable). -/
def failingAction : GestureAction := ⟨"Failing Action", ActionOutcome.raises⟩

/-- A registry binding only `THUMB_UP` to the raising action. -/
def failingMapper : GestureToActionMapper :=
  GestureToActionMapper.empty.add_mapping Gesture.THUMB_UP failingAction

/-- The manager after one `THUMB_UP` observation from the initial state
with `failingMapper`: it is in `ActionDetectedState` with
`pending_gesture = some THUMB_UP`. -/
def pendingFailing : ActionApprovalManager :=
  ((initialManager failingMapper).handle_gesture (some Gesture.THUMB_UP)).1

/-- A manager in `ActionDetectedState` whose pending gesture has no
registry entry (the binding was removed after detection). -/
def pendingUnbound : ActionApprovalManager :=
  ⟨GestureState.ActionDetectedState, some Gesture.THUMB_UP, GestureToActionMapper.empty⟩

/-- C3: after the startup registration of
`ApplicationController.add_gesture_mappings`, looking the Approval
Gesture (the closed fist) up in the registry finds no content action
bound to it: the only binding it finds is the reserved "Approve"
placeholder, which is not one of the six content (playback-control)
actions. -/
theorem approval_gesture_not_content (a : GestureAction)
    (h : startupMapper.gesture_action_map Gesture.CLOSED_FIST = some a) :
    a ∉ contentActions := by
  have h0 : startupMapper.gesture_action_map Gesture.CLOSED_FIST =
      some approveAction := rfl
  rw [h0] at h
  rw [← Option.some_inj.mp h]
  decide

/-- Witness for C3: the closed fist's startup binding is the "Approve"
placeholder, and that binding is not a content action. -/
theorem approval_gesture_not_content_witness :
    startupMapper.gesture_action_map Gesture.CLOSED_FIST = some approveAction ∧
    approveAction ∉ contentActions :=
  ⟨rfl, approval_gesture_not_content approveAction rfl⟩

/-- C5: in `ActionDetectedState` (the PendingApproval state) with
pending gesture `g`, any single observation other than the closed fist
— a different mapped gesture, an unmapped gesture, or none — leaves the
pending gesture and the state unchanged and invokes no action. -/
theorem noise_while_pending (mp : GestureToActionMapper) (g : Gesture)
    (e : Option Gesture) (he : e ≠ some Gesture.CLOSED_FIST) :
    (ActionApprovalManager.handle_gesture
      ⟨GestureState.ActionDetectedState, some g, mp⟩ e) =
      (⟨GestureState.ActionDetectedState, some g, mp⟩, [], false) :=
  hg_detected_nonfist (some g) mp e he

/-- Witness for C5: with the startup registry, pending `THUMB_UP`, a
differently mapped `OPEN_PALM` observation changes nothing. -/
theorem noise_while_pending_witness :
    (ActionApprovalManager.handle_gesture
      ⟨GestureState.ActionDetectedState, some Gesture.THUMB_UP, startupMapper⟩
      (some Gesture.OPEN_PALM)) =
      (⟨GestureState.ActionDetectedState, some Gesture.THUMB_UP, startupMapper⟩,
        [], false) :=
  noise_while_pending startupMapper Gesture.THUMB_UP (some Gesture.OPEN_PALM)
    (by decide)

/-- C9: from the initial state (IdleState, no pending gesture), any
number of closed-fist observations — under any registry, including one
binding the closed fist itself — leaves the manager unchanged and
invokes no action. -/
theorem idle_ignores_approval (mp : GestureToActionMapper) (n : Nat) :
    runEvents (initialManager mp)
      (List.replicate n (some Gesture.CLOSED_FIST)) =
      (initialManager mp, [], false) := by
  induction n with
  | zero => rfl
  | succ k ih =>
      rw [List.replicate_succ,
        runEvents_cons (initialManager mp) (some Gesture.CLOSED_FIST)
          (List.replicate k (some Gesture.CLOSED_FIST)) (initialManager mp) []
          rfl, ih]
      simp

/-- C10: whatever observation arrives while the manager sits in the
transient `ApprovedState` (the post-execution state) — a mapped
gesture, the closed fist, or none — `ApprovedState.handle_gesture` only
transitions back to `IdleState`: it never records a pending gesture and
never invokes an action. -/
theorem approved_state_consumes_observation (mp : GestureToActionMapper)
    (p : Option Gesture) (e : Option Gesture) :
    (ActionApprovalManager.handle_gesture ⟨GestureState.ApprovedState, p, mp⟩ e) =
      (⟨GestureState.IdleState, p, mp⟩, [], false) :=
  rfl

/-- Counterexample to C1 as stated: with `THUMB_UP` bound to the
(normally returning) volume-increase action, running
`[THUMB_UP, CLOSED_FIST]` from the initial state does invoke the action
exactly once, but after the second event the manager's state is NOT
`IdleState` — it is the transient `ApprovedState`. -/
theorem confirm_cycle_not_idle_after_two :
    (runEvents (initialManager thumbUpMapper)
      [some Gesture.THUMB_UP, some Gesture.CLOSED_FIST]).2.1 =
      [incrementVolumeAction] ∧
    (runEvents (initialManager thumbUpMapper)
      [some Gesture.THUMB_UP, some Gesture.CLOSED_FIST]).1.state =
      GestureState.ApprovedState ∧
    (runEvents (initialManager thumbUpMapper)
      [some Gesture.THUMB_UP, some Gesture.CLOSED_FIST]).1.state ≠
      GestureState.IdleState :=
  ⟨rfl, rfl, by decide⟩

/-- C1 (amended): for every registry binding a non-fist gesture `g` to
a normally returning action `a`, running `[g, CLOSED_FIST]` from the
initial state invokes `a` exactly once and leaves the manager in the
transient `ApprovedState` with the pending gesture cleared; the next
observation, whatever it is, then returns the manager to `IdleState`. -/
theorem confirm_cycle_invokes_once (mp : GestureToActionMapper) (g : Gesture)
    (a : GestureAction) (hg : g ≠ Gesture.CLOSED_FIST)
    (hm : mp.gesture_action_map g = some a)
    (ho : a.outcome = ActionOutcome.ok) :
    runEvents (initialManager mp) [some g, some Gesture.CLOSED_FIST] =
      (⟨GestureState.ApprovedState, none, mp⟩, [a], false) ∧
    ∀ e : Option Gesture,
      (ActionApprovalManager.handle_gesture
        ⟨GestureState.ApprovedState, none, mp⟩ e) =
        (⟨GestureState.IdleState, none, mp⟩, [], false) := by
  refine ⟨?_, fun e => hg_approved none mp e⟩
  have h1 : (initialManager mp).handle_gesture (some g) =
      (⟨GestureState.ActionDetectedState, some g, mp⟩, [], false) :=
    hg_idle_mapped none mp g hg (by rw [hm]; rfl)
  have h2 : (ActionApprovalManager.handle_gesture
      ⟨GestureState.ActionDetectedState, some g, mp⟩
      (some Gesture.CLOSED_FIST)) =
      (⟨GestureState.ApprovedState, none, mp⟩, [a], false) := by
    rw [hg_detected_fist]
    exact execute_action_ok GestureState.ApprovedState mp g a hm ho
  rw [runEvents_cons _ _ _ _ _ h1, runEvents_cons _ _ _ _ _ h2]
  simp [runEvents]

/-- Witness for C1 (amended): the concrete `THUMB_UP` cycle. -/
theorem confirm_cycle_invokes_once_witness :
    runEvents (initialManager thumbUpMapper)
      [some Gesture.THUMB_UP, some Gesture.CLOSED_FIST] =
      (⟨GestureState.ApprovedState, none, thumbUpMapper⟩,
        [incrementVolumeAction], false) :=
  (confirm_cycle_invokes_once thumbUpMapper Gesture.THUMB_UP
    incrementVolumeAction (by decide) rfl rfl).1

/-- Counterexample to C7 as stated: in `ActionDetectedState` with
pending `THUMB_UP` whose registry entry is absent, a closed fist
invokes nothing, raises nothing and clears the pending gesture — but
the state after the call is NOT `IdleState`; it is the transient
`ApprovedState`. -/
theorem missing_binding_not_idle_after_confirm :
    (pendingUnbound.handle_gesture (some Gesture.CLOSED_FIST)).2.1 = [] ∧
    (pendingUnbound.handle_gesture (some Gesture.CLOSED_FIST)).2.2 = false ∧
    (pendingUnbound.handle_gesture (some Gesture.CLOSED_FIST)).1.pending_gesture =
      none ∧
    (pendingUnbound.handle_gesture (some Gesture.CLOSED_FIST)).1.state =
      GestureState.ApprovedState ∧
    (pendingUnbound.handle_gesture (some Gesture.CLOSED_FIST)).1.state ≠
      GestureState.IdleState :=
  ⟨rfl, rfl, rfl, rfl, by decide⟩

/-- C7 (amended): confirming a pending gesture whose registry entry is
absent invokes no action, lets no exception escape and clears the
pending gesture, but it leaves the manager in the transient
`ApprovedState`; the next observation, whatever it is, then resets the
manager to `IdleState`. -/
theorem missing_binding_safe (mp : GestureToActionMapper) (g : Gesture)
    (hm : mp.gesture_action_map g = none) :
    (ActionApprovalManager.handle_gesture
      ⟨GestureState.ActionDetectedState, some g, mp⟩
      (some Gesture.CLOSED_FIST)) =
      (⟨GestureState.ApprovedState, none, mp⟩, [], false) ∧
    ∀ e : Option Gesture,
      (ActionApprovalManager.handle_gesture
        ⟨GestureState.ApprovedState, none, mp⟩ e) =
        (⟨GestureState.IdleState, none, mp⟩, [], false) := by
  refine ⟨?_, fun e => hg_approved none mp e⟩
  rw [hg_detected_fist]
  exact execute_action_missing GestureState.ApprovedState mp g hm

/-- Witness for C7 (amended): the empty registry with pending
`THUMB_UP`. -/
theorem missing_binding_safe_witness :
    (ActionApprovalManager.handle_gesture
      ⟨GestureState.ActionDetectedState, some Gesture.THUMB_UP,
        GestureToActionMapper.empty⟩ (some Gesture.CLOSED_FIST)) =
      (⟨GestureState.ApprovedState, none, GestureToActionMapper.empty⟩,
        [], false) :=
  (missing_binding_safe GestureToActionMapper.empty Gesture.THUMB_UP rfl).1

/-- Counterexample to C2 as stated: from `ActionDetectedState` with
pending `THUMB_UP` bound to a raising action (a state reached from the
initial state by one `THUMB_UP` call), the closed-fist call lets the
exception escape `handle_gesture`, leaves the manager in
`ApprovedState` (neither `IdleState` nor `ActionDetectedState`), and
does not clear the pending gesture: the `self.pending_gesture = None`
line is skipped because there is no `try`/`finally`. -/
theorem raising_action_escapes :
    (pendingFailing.handle_gesture (some Gesture.CLOSED_FIST)).2.2 = true ∧
    (pendingFailing.handle_gesture (some Gesture.CLOSED_FIST)).1.state =
      GestureState.ApprovedState ∧
    (pendingFailing.handle_gesture (some Gesture.CLOSED_FIST)).1.pending_gesture =
      some Gesture.THUMB_UP :=
  ⟨rfl, rfl, rfl⟩

/-- C2 (amended): when the pending gesture's registered action raises
during confirmation, the exception escapes `handle_gesture`, the
pending gesture is NOT cleared, and the manager is left in the
transient `ApprovedState`; the post-execution reset runs only when the
invoked action returns normally (which the application's
decorator-wrapped Spotify actions always do). -/
theorem raising_action_not_caught (mp : GestureToActionMapper) (g : Gesture)
    (a : GestureAction) (hm : mp.gesture_action_map g = some a)
    (ho : a.outcome = ActionOutcome.raises) :
    (ActionApprovalManager.handle_gesture
      ⟨GestureState.ActionDetectedState, some g, mp⟩
      (some Gesture.CLOSED_FIST)) =
      (⟨GestureState.ApprovedState, some g, mp⟩, [a], true) := by
  rw [hg_detected_fist]
  exact execute_action_raise GestureState.ApprovedState mp g a hm ho

/-- Witness for C2 (amended): the raising `THUMB_UP` binding. -/
theorem raising_action_not_caught_witness :
    (ActionApprovalManager.handle_gesture
      ⟨GestureState.ActionDetectedState, some Gesture.THUMB_UP, failingMapper⟩
      (some Gesture.CLOSED_FIST)) =
      (⟨GestureState.ApprovedState, some Gesture.THUMB_UP, failingMapper⟩,
        [failingAction], true) :=
  raising_action_not_caught failingMapper Gesture.THUMB_UP failingAction rfl rfl

/-- The manager after `pendingFailing` processes the closed fist and
the raising action's exception escapes: `ApprovedState` with the
pending gesture still set. -/
def afterRaise : ActionApprovalManager :=
  (pendingFailing.handle_gesture (some Gesture.CLOSED_FIST)).1

/-- Counterexample to C4 as stated: `afterRaise` is reachable from the
initial state by two `handle_gesture` calls, its pending gesture is
non-empty, yet its state is not `ActionDetectedState` (the
PendingApproval state) — the biconditional fails on it. -/
theorem pending_invariant_fails_on_raise :
    Reachable (initialManager failingMapper) afterRaise ∧
    afterRaise.pending_gesture ≠ none ∧
    afterRaise.state ≠ GestureState.ActionDetectedState :=
  ⟨Reachable.step pendingFailing (some Gesture.CLOSED_FIST)
      (Reachable.step (initialManager failingMapper) (some Gesture.THUMB_UP)
        Reachable.refl),
    by decide, by decide⟩

/-- C4 (amended): in every state reachable from the initial state by
`handle_gesture` calls none of which let an exception escape, the
pending gesture is non-empty exactly when the state is
`ActionDetectedState` (the PendingApproval state). -/
theorem pending_iff_actionDetected (mp : GestureToActionMapper)
    (m : ActionApprovalManager)
    (h : ReachableNoRaise (initialManager mp) m) :
    m.pending_gesture ≠ none ↔ m.state = GestureState.ActionDetectedState := by
  induction h with
  | refl => simp [initialManager]
  | step m e _ hnr ih =>
      rcases m with ⟨st, p, mpr⟩
      cases st with
      | IdleState =>
          have hp : p = none := by
            by_contra hne
            exact absurd (ih.mp hne) (by simp)
          subst hp
          rcases e with _ | g
          · rw [hg_idle_none]
            simp
          · by_cases hfist : g = Gesture.CLOSED_FIST
            · subst hfist
              rw [hg_idle_fist]
              simp
            · rcases hl : mpr.gesture_action_map g with _ | a
              · rw [hg_idle_unmapped none mpr g hfist hl]
                simp
              · rw [hg_idle_mapped none mpr g hfist (by rw [hl]; rfl)]
                simp
      | ActionDetectedState =>
          have hp : p ≠ none := ih.mpr rfl
          rcases p with _ | pg
          · exact absurd rfl hp
          · by_cases hfist : e = some Gesture.CLOSED_FIST
            · subst hfist
              rw [hg_detected_fist]
              rw [hg_detected_fist] at hnr
              rcases hl : mpr.gesture_action_map pg with _ | a
              · rw [execute_action_missing GestureState.ApprovedState mpr pg hl]
                simp
              · rcases ho : a.outcome with _ | _
                · rw [execute_action_ok GestureState.ApprovedState mpr pg a hl ho]
                  simp
                · rw [execute_action_raise GestureState.ApprovedState mpr pg a hl ho]
                    at hnr
                  simp at hnr
            · rw [hg_detected_nonfist (some pg) mpr e hfist]
              simp
      | ApprovedState =>
          have hp : p = none := by
            by_contra hne
            exact absurd (ih.mp hne) (by simp)
          subst hp
          rw [hg_approved]
          simp

/-- Witness for C4 (amended): the state after one `THUMB_UP` call from
the startup registry's initial state satisfies the biconditional. -/
theorem pending_iff_actionDetected_witness :
    (((initialManager startupMapper).handle_gesture
        (some Gesture.THUMB_UP)).1.pending_gesture ≠ none ↔
      ((initialManager startupMapper).handle_gesture
        (some Gesture.THUMB_UP)).1.state = GestureState.ActionDetectedState) :=
  pending_iff_actionDetected startupMapper _
    (ReachableNoRaise.step (initialManager startupMapper)
      (some Gesture.THUMB_UP) ReachableNoRaise.refl rfl)

/-- Repeating the pending gesture while in `ActionDetectedState` is a
no-op for any number of repetitions. -/
theorem runEvents_detected_self (mp : GestureToActionMapper) (g : Gesture)
    (hg : g ≠ Gesture.CLOSED_FIST) (k : Nat) :
    runEvents ⟨GestureState.ActionDetectedState, some g, mp⟩
      (List.replicate k (some g)) =
      (⟨GestureState.ActionDetectedState, some g, mp⟩, [], false) := by
  induction k with
  | zero => rfl
  | succ j ih =>
      rw [List.replicate_succ,
        runEvents_cons _ _ _ _ _
          (hg_detected_nonfist (some g) mp (some g) (by simpa using hg)), ih]
      simp

/-- Running `n ≥ 1` repetitions of a mapped non-fist gesture from the
initial state ends in `ActionDetectedState` with that gesture pending,
with no action invoked and no exception. -/
theorem run_replicate_mapped (mp : GestureToActionMapper) (g : Gesture)
    (hg : g ≠ Gesture.CLOSED_FIST)
    (hm : (mp.gesture_action_map g).isSome = true) (n : Nat) (hn : 1 ≤ n) :
    runEvents (initialManager mp) (List.replicate n (some g)) =
      (⟨GestureState.ActionDetectedState, some g, mp⟩, [], false) := by
  obtain ⟨j, rfl⟩ : ∃ j, n = j + 1 :=
    ⟨n - 1, (Nat.succ_pred_eq_of_pos hn).symm⟩
  have h1 : (initialManager mp).handle_gesture (some g) =
      (⟨GestureState.ActionDetectedState, some g, mp⟩, [], false) :=
    hg_idle_mapped none mp g hg hm
  rw [List.replicate_succ, runEvents_cons _ _ _ _ _ h1,
    runEvents_detected_self mp g hg j]
  simp

/-- C6: for every registry mapping a non-fist gesture `g` and every
`n ≥ 1`, processing `g` repeated `n` times from the initial state
invokes no action and lets no exception escape, and the manager is in
`ActionDetectedState` (PendingApproval) after every nonempty prefix —
so it entered that state exactly once, on the first observation, and
stayed there. -/
theorem idempotent_hold (mp : GestureToActionMapper) (g : Gesture)
    (a : GestureAction) (n : Nat) (hg : g ≠ Gesture.CLOSED_FIST)
    (hm : mp.gesture_action_map g = some a) (hn : 1 ≤ n) :
    runEvents (initialManager mp) (List.replicate n (some g)) =
      (⟨GestureState.ActionDetectedState, some g, mp⟩, [], false) ∧
    ∀ k, 1 ≤ k → k ≤ n →
      (runEvents (initialManager mp) (List.replicate k (some g))).1.state =
        GestureState.ActionDetectedState := by
  have hs : (mp.gesture_action_map g).isSome = true := by rw [hm]; rfl
  refine ⟨run_replicate_mapped mp g hg hs n hn, fun k hk _ => ?_⟩
  rw [run_replicate_mapped mp g hg hs k hk]

/-- Witness for C6: three repeated `THUMB_UP` observations under the
startup registry. -/
theorem idempotent_hold_witness :
    runEvents (initialManager startupMapper)
      (List.replicate 3 (some Gesture.THUMB_UP)) =
      (⟨GestureState.ActionDetectedState, some Gesture.THUMB_UP,
        startupMapper⟩, [], false) :=
  (idempotent_hold startupMapper Gesture.THUMB_UP addToLikedAction 3
    (by decide) rfl (by decide)).1

/-- C8: registering `a1` and then `a2` for the same gesture leaves the
registry binding that gesture to `a2` (dictionary overwrite), and a
subsequent confirm cycle for the gesture invokes exactly `[a2]` — never
`a1`. -/
theorem overwrite_last_wins (mp : GestureToActionMapper) (g : Gesture)
    (a1 a2 : GestureAction) (hg : g ≠ Gesture.CLOSED_FIST) :
    ((mp.add_mapping g a1).add_mapping g a2).gesture_action_map g = some a2 ∧
    (runEvents (initialManager ((mp.add_mapping g a1).add_mapping g a2))
      [some g, some Gesture.CLOSED_FIST]).2.1 = [a2] := by
  have hl : ((mp.add_mapping g a1).add_mapping g a2).gesture_action_map g =
      some a2 := by
    simp [GestureToActionMapper.add_mapping]
  refine ⟨hl, ?_⟩
  have h1 : (initialManager ((mp.add_mapping g a1).add_mapping g a2)).handle_gesture
      (some g) =
      (⟨GestureState.ActionDetectedState, some g,
        (mp.add_mapping g a1).add_mapping g a2⟩, [], false) :=
    hg_idle_mapped none _ g hg (by rw [hl]; rfl)
  rcases ho : a2.outcome with _ | _
  · have h2 : (ActionApprovalManager.handle_gesture
        ⟨GestureState.ActionDetectedState, some g,
          (mp.add_mapping g a1).add_mapping g a2⟩ (some Gesture.CLOSED_FIST)) =
        (⟨GestureState.ApprovedState, none,
          (mp.add_mapping g a1).add_mapping g a2⟩, [a2], false) := by
      rw [hg_detected_fist]
      exact execute_action_ok GestureState.ApprovedState _ g a2 hl ho
    rw [runEvents_cons _ _ _ _ _ h1, runEvents_cons _ _ _ _ _ h2]
    simp [runEvents]
  · have h2 : (ActionApprovalManager.handle_gesture
        ⟨GestureState.ActionDetectedState, some g,
          (mp.add_mapping g a1).add_mapping g a2⟩ (some Gesture.CLOSED_FIST)) =
        (⟨GestureState.ApprovedState, some g,
          (mp.add_mapping g a1).add_mapping g a2⟩, [a2], true) := by
      rw [hg_detected_fist]
      exact execute_action_raise GestureState.ApprovedState _ g a2 hl ho
    rw [runEvents_cons _ _ _ _ _ h1, runEvents_cons_raise _ _ _ _ _ h2]
    simp

/-- Witness for C8: rebinding `VICTORY` from the mute action to the
unmute action. -/
theorem overwrite_last_wins_witness :
    ((GestureToActionMapper.empty.add_mapping Gesture.VICTORY muteAction).add_mapping
      Gesture.VICTORY unmuteAction).gesture_action_map Gesture.VICTORY =
      some unmuteAction ∧
    (runEvents (initialManager
      ((GestureToActionMapper.empty.add_mapping Gesture.VICTORY muteAction).add_mapping
        Gesture.VICTORY unmuteAction))
      [some Gesture.VICTORY, some Gesture.CLOSED_FIST]).2.1 = [unmuteAction] :=
  overwrite_last_wins GestureToActionMapper.empty Gesture.VICTORY muteAction
    unmuteAction (by decide)
